import Mathlib

/-!
Shallow embedding of `src/native/fmod/src/libpenntotalrecall.c`.

The library is a process-wide singleton playback controller over the FMOD
Core engine.  The FMOD engine itself is external: every FMOD call made by
the library is modelled by an environment record that fixes the call's
result code and any out-parameter values.  The library's own observable
state (the global handles, `lastStartFrame`, `currentState`) is a record,
and each exported function is a pure function from environment and state
to result and new state, translated line by line from the C source.

Machine-integer conventions: C `unsigned int` arithmetic is taken modulo
2^32; the implementation-defined `long long` → `int` store wraps
(`toInt32`), as gcc does; `double` arithmetic at line 169 is modelled by
exact rational arithmetic with the C `(int)` cast as truncation toward
zero (at every input appearing in the claims the double computation is
exact, so the models agree there).
-/

namespace PennTotalRecall

/-- The `PlaybackState` enum of the C source, in declaration order. -/
inductive PlaybackState
  | uninitialized
  | systemCreated
  | systemInitialized
  | soundLoaded
  | playing
  | error
  deriving DecidableEq, Repr

/-- The integer value of the C enum constant (declaration order from 0). -/
def PlaybackState.toNat : PlaybackState → Nat
  | .uninitialized => 0
  | .systemCreated => 1
  | .systemInitialized => 2
  | .soundLoaded => 3
  | .playing => 4
  | .error => 5

/-- Result codes of FMOD calls, as the C source distinguishes them:
`FMOD_OK`, the two benign invalid-channel codes, and all other errors. -/
inductive FmodResult
  | ok
  | errInvalidHandle
  | errChannelStolen
  | otherError (code : Nat)
  deriving DecidableEq, Repr

/-- The benign-error test the C source repeats:
`(result != FMOD_OK) && (result != FMOD_ERR_INVALID_HANDLE) && (result != FMOD_ERR_CHANNEL_STOLEN)`. -/
def FmodResult.isGenuineError : FmodResult → Bool
  | .ok => false
  | .errInvalidHandle => false
  | .errChannelStolen => false
  | .otherError _ => true

/-- The library's global mutable state: the three FMOD handles (modelled
by whether they are non-NULL), `int lastStartFrame`, and `currentState`. -/
structure LibState where
  fmsystem : Bool
  sound : Bool
  channel : Bool
  lastStartFrame : Int
  currentState : PlaybackState
  deriving DecidableEq, Repr

/-- Process start: all globals NULL / 0 / `STATE_UNINITIALIZED`. -/
def initialState : LibState :=
  { fmsystem := false, sound := false, channel := false
    lastStartFrame := 0, currentState := .uninitialized }

/-- gcc semantics of the implementation-defined C conversion
`long long` → `int`: wrap modulo 2^32 into [-2^31, 2^31). -/
def toInt32 (x : Int) : Int :=
  (x + 2 ^ 31) % 2 ^ 32 - 2 ^ 31

/-- The C `(int)` cast applied to a real-valued expression: truncation
toward zero. -/
def cTrunc (q : ℚ) : Int :=
  if q < 0 then ⌈q⌉ else ⌊q⌋

/-- Line 169 of the C source:
`endDelayFrames = startDelayFrames + (int) (outputRate * ((endFrame - startFrame) / (double)(inputRate)));`
where `endDelayFrames` and `startDelayFrames` are `unsigned int` (so the
final sum wraps modulo 2^32), `outputRate` is `int`, `inputRate` is
`float`, and the frame arguments are `long long`. -/
def endDelayFramesCalc (startDelayFrames : Nat) (outputRate : Int) (inputRate : ℚ)
    (startFrame endFrame : Int) : Nat :=
  (((startDelayFrames : Int)
      + cTrunc ((outputRate : ℚ) * (((endFrame - startFrame : Int) : ℚ) / inputRate)))
    % 2 ^ 32).toNat

/-- `cleanupResources` (lines 278-311): release the sound then the
system (release failures only log), NULL every handle, zero
`lastStartFrame`, and reset the state to `STATE_UNINITIALIZED`. -/
def cleanupResources (s : LibState) : LibState :=
  let s := if s.sound then { s with sound := false } else s
  let s := if s.fmsystem then { s with fmsystem := false } else s
  { s with channel := false, lastStartFrame := 0, currentState := .uninitialized }

/-- `validateState` (lines 313-340): returns whether `currentState` has
reached `expected` and the handles required by `expected` are non-NULL;
a state/handle mismatch sets `currentState = STATE_ERROR`. -/
def validateState (expected : PlaybackState) (s : LibState) : Bool × LibState :=
  if s.currentState.toNat < expected.toNat then
    (false, s)
  else if PlaybackState.systemCreated.toNat ≤ expected.toNat ∧ s.fmsystem = false then
    (false, { s with currentState := .error })
  else if PlaybackState.soundLoaded.toNat ≤ expected.toNat ∧ s.sound = false then
    (false, { s with currentState := .error })
  else if PlaybackState.playing.toNat ≤ expected.toNat ∧ s.channel = false then
    (false, { s with currentState := .error })
  else
    (true, s)

/-- The externally-determined outcomes of the FMOD calls that one
`startPlayback` run can make, in call order.  Out-parameter values
(`defaultFrequency` from `GetDefaults`, `dspBufferLength` from
`GetDSPBufferSize`, `softwareSampleRate` from `GetSoftwareFormat`, the
DSP clock) are the values FMOD would write when the call succeeds. -/
structure StartEnv where
  systemCreateResult : FmodResult
  systemInitResult : FmodResult
  createSoundResult : FmodResult
  getDefaultsResult : FmodResult
  defaultFrequency : ℚ
  playSoundResult : FmodResult
  getDSPBufferSizeResult : FmodResult
  dspBufferLength : Nat
  getSoftwareFormatResult : FmodResult
  softwareSampleRate : Int
  dspClock : Nat
  setDelayStartResult : FmodResult
  setDelayEndResult : FmodResult
  setVolumeResult : FmodResult
  setPausedResult : FmodResult
  deriving DecidableEq, Repr

/-- What a `startPlayback` run returns and leaves behind: the status
code, the final global state, and (when the run reached them) the
`initialseekposition` handed to `FMOD_System_CreateSound` (an
`unsigned int` field in FMOD Core, hence modulo 2^32) and the two
delay values handed to `FMOD_Channel_SetDelay`. -/
structure StartResult where
  status : Int
  state : LibState
  initialSeekPosition : Option Nat
  startDelayFrames : Option Nat
  endDelayFrames : Option Nat
  deriving DecidableEq, Repr

/-- `startPlayback` (lines 65-203), translated branch by branch from the
C source.  The `filename` argument only flows into `CreateSound`, whose
outcome the environment fixes, so it does not influence the model. -/
def startPlayback (env : StartEnv) (s : LibState) (_filename : String)
    (startFrame endFrame : Int) : StartResult :=
  -- lines 72-75: implicit teardown of any live session
  let s := if s.currentState ≠ .uninitialized then cleanupResources s else s
  -- lines 77-80: clamp a negative startFrame to 0
  let startFrame := if startFrame < 0 then 0 else startFrame
  -- lines 82-86: range check
  if endFrame ≤ startFrame then
    { status := -1, state := cleanupResources s
      initialSeekPosition := none, startDelayFrames := none, endDelayFrames := none }
  else
  -- line 88: store into the 32-bit global `int lastStartFrame`
  let s := { s with lastStartFrame := toInt32 startFrame }
  -- lines 90-97: FMOD_System_Create
  if env.systemCreateResult ≠ .ok then
    { status := -1, state := cleanupResources s
      initialSeekPosition := none, startDelayFrames := none, endDelayFrames := none }
  else
  let s := { s with fmsystem := true, currentState := .systemCreated }
  -- lines 99-106: FMOD_System_Init
  if env.systemInitResult ≠ .ok then
    { status := -1, state := cleanupResources s
      initialSeekPosition := none, startDelayFrames := none, endDelayFrames := none }
  else
  let s := { s with currentState := .systemInitialized }
  -- lines 108-120: soundInfo.initialseekposition = startFrame; FMOD_System_CreateSound
  let seekPos : Nat := startFrame.toNat % 2 ^ 32
  if env.createSoundResult ≠ .ok then
    { status := -3, state := cleanupResources s
      initialSeekPosition := some seekPos, startDelayFrames := none, endDelayFrames := none }
  else
  let s := { s with sound := true, currentState := .soundLoaded }
  -- lines 122-128: FMOD_Sound_GetDefaults (inputRate)
  if env.getDefaultsResult ≠ .ok then
    { status := -3, state := cleanupResources s
      initialSeekPosition := some seekPos, startDelayFrames := none, endDelayFrames := none }
  else
  let inputRate : ℚ := env.defaultFrequency
  -- lines 130-137: FMOD_System_PlaySound
  if env.playSoundResult ≠ .ok then
    { status := -1, state := cleanupResources s
      initialSeekPosition := some seekPos, startDelayFrames := none, endDelayFrames := none }
  else
  let s := { s with channel := true, currentState := .playing }
  -- lines 139-146: FMOD_System_GetDSPBufferSize
  if env.getDSPBufferSizeResult ≠ .ok then
    { status := -1, state := cleanupResources s
      initialSeekPosition := some seekPos, startDelayFrames := none, endDelayFrames := none }
  else
  -- line 146: startDelayFrames *= 2 (unsigned int)
  let startDelayFrames : Nat := (env.dspBufferLength % 2 ^ 32) * 2 % 2 ^ 32
  -- lines 148-154: FMOD_System_GetSoftwareFormat (outputRate)
  if env.getSoftwareFormatResult ≠ .ok then
    { status := -1, state := cleanupResources s
      initialSeekPosition := some seekPos, startDelayFrames := some startDelayFrames
      endDelayFrames := none }
  else
  let outputRate : Int := env.softwareSampleRate
  -- lines 156-167: GetDSPClock (result ignored); SetDelay for the start
  if env.setDelayStartResult ≠ .ok then
    { status := -1, state := cleanupResources s
      initialSeekPosition := some seekPos, startDelayFrames := some startDelayFrames
      endDelayFrames := none }
  else
  -- line 169: the input-rate to output-rate stop-delay conversion
  let endDelayFrames : Nat :=
    endDelayFramesCalc startDelayFrames outputRate inputRate startFrame endFrame
  -- lines 172-181: SetDelay for the end
  if env.setDelayEndResult ≠ .ok then
    { status := -1, state := cleanupResources s
      initialSeekPosition := some seekPos, startDelayFrames := some startDelayFrames
      endDelayFrames := some endDelayFrames }
  else
  -- lines 184-190: SetVolume; invalid-handle / stolen-channel results are benign
  if env.setVolumeResult.isGenuineError then
    { status := -1, state := cleanupResources s
      initialSeekPosition := some seekPos, startDelayFrames := some startDelayFrames
      endDelayFrames := some endDelayFrames }
  else
  -- lines 192-198: SetPaused; same benign set
  if env.setPausedResult.isGenuineError then
    { status := -1, state := cleanupResources s
      initialSeekPosition := some seekPos, startDelayFrames := some startDelayFrames
      endDelayFrames := some endDelayFrames }
  else
  -- lines 200-202: FMOD_System_Update; return 0
  { status := 0, state := s
    initialSeekPosition := some seekPos, startDelayFrames := some startDelayFrames
    endDelayFrames := some endDelayFrames }

/-- The externally-determined outcome of the one FMOD query
`streamPosition` makes: `FMOD_Channel_GetPosition`'s result code and the
`unsigned int` position it writes on success. -/
structure PosEnv where
  getPositionResult : FmodResult
  position : Nat
  deriving DecidableEq, Repr

/-- `streamPosition` (lines 223-242).  On a benign invalid-channel
result `frames` keeps its initialization value 0; the C return value
`frames - lastStartFrame` is an `unsigned int` difference (modulo 2^32)
widened to `long long`. -/
def streamPosition (env : PosEnv) (s : LibState) : Int × LibState :=
  match validateState .playing s with
  | (false, s') => (-1, s')
  | (true, s') =>
    if env.getPositionResult.isGenuineError then
      (-1, s')
    else
      let frames : Nat := if env.getPositionResult = .ok then env.position % 2 ^ 32 else 0
      (((frames : Int) - s'.lastStartFrame) % 2 ^ 32, s')

/-- `stopPlayback` (lines 205-221). -/
def stopPlayback (env : PosEnv) (s : LibState) : Int × LibState :=
  if s.currentState = .uninitialized then
    (0, s)
  else
    let r :=
      if PlaybackState.playing.toNat ≤ s.currentState.toNat ∧ s.channel then
        streamPosition env s
      else
        (0, s)
    (r.1, cleanupResources r.2)

/-- The externally-determined outcome of `FMOD_Channel_IsPlaying`. -/
structure PlayingEnv where
  isPlayingResult : FmodResult
  isPlaying : Bool
  deriving DecidableEq, Repr

/-- `playbackInProgress` (lines 244-261).  On a benign invalid-channel
result `playing` keeps its initialization value 0. -/
def playbackInProgress (env : PlayingEnv) (s : LibState) : Bool :=
  if s.currentState.toNat < PlaybackState.playing.toNat ∨ s.channel = false then
    false
  else if env.isPlayingResult.isGenuineError then
    false
  else if env.isPlayingResult = .ok then
    env.isPlaying
  else
    false

/-- One external invocation of the library, with the FMOD outcomes its
run will see. -/
inductive Op
  | start (env : StartEnv) (filename : String) (startFrame endFrame : Int)
  | stop (env : PosEnv)
  | pos (env : PosEnv)
  | inProgress (env : PlayingEnv)

/-- The state left behind by one invocation. -/
def step (op : Op) (s : LibState) : LibState :=
  match op with
  | .start env fn sf ef => (startPlayback env s fn sf ef).state
  | .stop env => (stopPlayback env s).2
  | .pos env => (streamPosition env s).2
  | .inProgress _ => s

/-- The handle-nesting invariant: the sound handle is non-NULL only when
the system handle is, and the channel only when the sound handle is. -/
def HandleInv (s : LibState) : Prop :=
  (s.sound = true → s.fmsystem = true) ∧ (s.channel = true → s.sound = true)

instance : DecidablePred HandleInv := fun s =>
  inferInstanceAs (Decidable ((s.sound = true → s.fmsystem = true) ∧ (s.channel = true → s.sound = true)))


/-- An environment in which every FMOD call succeeds, with a 44100 Hz
input stream, 48000 Hz output rate, and a 1024-frame DSP buffer. -/
def envAllOk : StartEnv :=
  { systemCreateResult := .ok, systemInitResult := .ok, createSoundResult := .ok
    getDefaultsResult := .ok, defaultFrequency := 44100, playSoundResult := .ok
    getDSPBufferSizeResult := .ok, dspBufferLength := 1024
    getSoftwareFormatResult := .ok, softwareSampleRate := 48000, dspClock := 0
    setDelayStartResult := .ok, setDelayEndResult := .ok
    setVolumeResult := .ok, setPausedResult := .ok }

/-- An environment in which `FMOD_System_Create` fails (an engine error). -/
def envCreateFail : StartEnv := { envAllOk with systemCreateResult := .otherError 60 }

/-- An environment in which `FMOD_System_CreateSound` fails (a stream-open error). -/
def envSoundOpenFail : StartEnv := { envAllOk with createSoundResult := .otherError 18 }

/-- An environment in which `FMOD_Sound_GetDefaults` fails (a stream-format error). -/
def envFormatFail : StartEnv := { envAllOk with getDefaultsResult := .otherError 18 }

/-- The state after a fully successful `startPlayback` of frames [100, 200). -/
def statePlaying100 : LibState := (startPlayback envAllOk initialState "f" 100 200).state

/-- The state after a fully successful `startPlayback` of frames [0, 10). -/
def statePlaying0 : LibState := (startPlayback envAllOk initialState "f" 0 10).state

/-! ### Helper lemmas -/

/-- Teardown always produces the fully-reset state: every handle NULL,
`lastStartFrame` 0, `currentState = STATE_UNINITIALIZED`. -/
lemma cleanupResources_eq (s : LibState) : cleanupResources s = initialState := by
  unfold cleanupResources initialState
  cases hs : s.sound <;> cases hf : s.fmsystem <;> simp [hs, hf]

/-- Characterization of every `startPlayback` run: either it returns 0
with the fully-populated Playing state and the seek position it passed to
`CreateSound`, or it returns -1 or -3 with the fully-torn-down state. -/
lemma startPlayback_spec (env : StartEnv) (s : LibState) (fn : String) (sf ef : Int) :
    ((startPlayback env s fn sf ef).status = 0 ∧
      (if sf < 0 then 0 else sf) < ef ∧
      (startPlayback env s fn sf ef).state =
        { fmsystem := true, sound := true, channel := true,
          lastStartFrame := toInt32 (if sf < 0 then 0 else sf), currentState := .playing } ∧
      (startPlayback env s fn sf ef).initialSeekPosition =
        some ((if sf < 0 then 0 else sf).toNat % 2 ^ 32))
    ∨ (((startPlayback env s fn sf ef).status = -1 ∨ (startPlayback env s fn sf ef).status = -3) ∧
        (startPlayback env s fn sf ef).state = initialState) := by
  simp only [startPlayback]
  by_cases hr : ef ≤ (if sf < 0 then 0 else sf)
  · rw [if_pos hr]; right; exact ⟨Or.inl rfl, cleanupResources_eq _⟩
  rw [if_neg hr]
  by_cases h1 : env.systemCreateResult ≠ FmodResult.ok
  · rw [if_pos h1]; right; exact ⟨Or.inl rfl, cleanupResources_eq _⟩
  rw [if_neg h1]
  by_cases h2 : env.systemInitResult ≠ FmodResult.ok
  · rw [if_pos h2]; right; exact ⟨Or.inl rfl, cleanupResources_eq _⟩
  rw [if_neg h2]
  by_cases h3 : env.createSoundResult ≠ FmodResult.ok
  · rw [if_pos h3]; right; exact ⟨Or.inr rfl, cleanupResources_eq _⟩
  rw [if_neg h3]
  by_cases h4 : env.getDefaultsResult ≠ FmodResult.ok
  · rw [if_pos h4]; right; exact ⟨Or.inr rfl, cleanupResources_eq _⟩
  rw [if_neg h4]
  by_cases h5 : env.playSoundResult ≠ FmodResult.ok
  · rw [if_pos h5]; right; exact ⟨Or.inl rfl, cleanupResources_eq _⟩
  rw [if_neg h5]
  by_cases h6 : env.getDSPBufferSizeResult ≠ FmodResult.ok
  · rw [if_pos h6]; right; exact ⟨Or.inl rfl, cleanupResources_eq _⟩
  rw [if_neg h6]
  by_cases h7 : env.getSoftwareFormatResult ≠ FmodResult.ok
  · rw [if_pos h7]; right; exact ⟨Or.inl rfl, cleanupResources_eq _⟩
  rw [if_neg h7]
  by_cases h8 : env.setDelayStartResult ≠ FmodResult.ok
  · rw [if_pos h8]; right; exact ⟨Or.inl rfl, cleanupResources_eq _⟩
  rw [if_neg h8]
  by_cases h9 : env.setDelayEndResult ≠ FmodResult.ok
  · rw [if_pos h9]; right; exact ⟨Or.inl rfl, cleanupResources_eq _⟩
  rw [if_neg h9]
  by_cases h10 : env.setVolumeResult.isGenuineError = true
  · rw [if_pos h10]; right; exact ⟨Or.inl rfl, cleanupResources_eq _⟩
  rw [if_neg h10]
  by_cases h11 : env.setPausedResult.isGenuineError = true
  · rw [if_pos h11]; right; exact ⟨Or.inl rfl, cleanupResources_eq _⟩
  rw [if_neg h11]
  left
  exact ⟨rfl, lt_of_not_le hr, rfl, rfl⟩

/-- `streamPosition` in a state that has not reached Playing returns -1. -/
lemma streamPosition_not_playing (env : PosEnv) (s : LibState)
    (h : s.currentState.toNat < PlaybackState.playing.toNat) :
    (streamPosition env s).1 = -1 := by
  simp [streamPosition, validateState, h]

/-- `streamPosition` in the Playing state with all handles live and a
successful position query returns the mod-2^32 unsigned difference. -/
lemma streamPosition_playing_ok (env : PosEnv) (s : LibState)
    (h1 : s.currentState = .playing) (h2 : s.fmsystem = true) (h3 : s.sound = true)
    (h4 : s.channel = true) (hok : env.getPositionResult = FmodResult.ok) :
    streamPosition env s =
      ((((env.position % 2 ^ 32 : Nat) : Int) - s.lastStartFrame) % 2 ^ 32, s) := by
  simp [streamPosition, validateState, h1, h2, h3, h4, hok,
    PlaybackState.toNat, FmodResult.isGenuineError]

/-- `streamPosition` returns -1 when the position query fails with a
genuine (non-benign) FMOD error. -/
lemma streamPosition_genuineError (env : PosEnv) (s : LibState)
    (h1 : s.currentState = .playing) (h2 : s.fmsystem = true) (h3 : s.sound = true)
    (h4 : s.channel = true) (hg : env.getPositionResult.isGenuineError = true) :
    (streamPosition env s).1 = -1 := by
  simp [streamPosition, validateState, h1, h2, h3, h4, hg, PlaybackState.toNat]

/-- Every `streamPosition` return value is the -1 sentinel or an
unsigned-32-bit quantity. -/
lemma streamPosition_cases (env : PosEnv) (s : LibState) :
    (streamPosition env s).1 = -1 ∨
      (0 ≤ (streamPosition env s).1 ∧ (streamPosition env s).1 < 2 ^ 32) := by
  unfold streamPosition
  rcases hv : validateState .playing s with ⟨b, s2⟩
  cases b
  · simp
  · simp only
    split
    · simp
    · refine Or.inr ⟨Int.emod_nonneg _ (by norm_num), Int.emod_lt_of_pos _ (by norm_num)⟩

/-- `streamPosition` either leaves the state unchanged or only marks it
`STATE_ERROR` (via `validateState`); it never touches the handles. -/
lemma streamPosition_state (env : PosEnv) (s : LibState) :
    (streamPosition env s).2 = s ∨
      (streamPosition env s).2 = { s with currentState := .error } := by
  unfold streamPosition validateState
  by_cases ha : s.currentState.toNat < PlaybackState.playing.toNat
  · rw [if_pos ha]; left; rfl
  rw [if_neg ha]
  by_cases hb : PlaybackState.systemCreated.toNat ≤ PlaybackState.playing.toNat ∧ s.fmsystem = false
  · rw [if_pos hb]; right; rfl
  rw [if_neg hb]
  by_cases hc : PlaybackState.soundLoaded.toNat ≤ PlaybackState.playing.toNat ∧ s.sound = false
  · rw [if_pos hc]; right; rfl
  rw [if_neg hc]
  by_cases hd : PlaybackState.playing.toNat ≤ PlaybackState.playing.toNat ∧ s.channel = false
  · rw [if_pos hd]; right; rfl
  rw [if_neg hd]
  simp only
  split <;> left <;> rfl

/-- After any `stopPlayback` run the state is `STATE_UNINITIALIZED`. -/
lemma stopPlayback_state_uninit (env : PosEnv) (s : LibState) :
    (stopPlayback env s).2.currentState = .uninitialized := by
  unfold stopPlayback
  by_cases h : s.currentState = .uninitialized
  · rw [if_pos h]; exact h
  · rw [if_neg h]
    show (cleanupResources _).currentState = PlaybackState.uninitialized
    rw [cleanupResources_eq]
    rfl



/-! ### Claim theorems -/

/-- C1: In `startPlayback`, the stop-delay computation converts the requested
window from input-domain to output-domain frames as
`endDelayFrames = startDelayFrames + floor(outputRate * (endFrame - startFrame) / inputRate)`
(whenever the converted quantity is nonnegative and no 32-bit wrap occurs);
in particular for `inputRate = 44100`, `outputRate = 48000`, `startFrame = 0`,
`endFrame = 44100` the computed stop delay minus the safety margin
`startDelayFrames` is exactly 48000 frames, and a full successful run with
a 1024-frame buffer records the stop delay 2*1024 + 48000 = 50048. -/
theorem C1_stop_delay_rate_conversion :
    (∀ (sd : Nat) (oR sf ef : Int) (iR : ℚ),
        sd < 2 ^ 31 →
        0 ≤ (oR : ℚ) * (((ef - sf : Int) : ℚ) / iR) →
        ⌊(oR : ℚ) * (((ef - sf : Int) : ℚ) / iR)⌋ < 2 ^ 31 →
        (endDelayFramesCalc sd oR iR sf ef : Int)
          = (sd : Int) + ⌊(oR : ℚ) * (((ef - sf : Int) : ℚ) / iR)⌋) ∧
    (∀ sd : Nat, sd < 2 ^ 31 →
        (endDelayFramesCalc sd 48000 44100 0 44100 : Int) - (sd : Int) = 48000) ∧
    (startPlayback envAllOk initialState "f" 0 44100).endDelayFrames = some 50048 := by
  have main : ∀ (sd : Nat) (oR sf ef : Int) (iR : ℚ),
      sd < 2 ^ 31 →
      0 ≤ (oR : ℚ) * (((ef - sf : Int) : ℚ) / iR) →
      ⌊(oR : ℚ) * (((ef - sf : Int) : ℚ) / iR)⌋ < 2 ^ 31 →
      (endDelayFramesCalc sd oR iR sf ef : Int)
        = (sd : Int) + ⌊(oR : ℚ) * (((ef - sf : Int) : ℚ) / iR)⌋ := by
    intro sd oR sf ef iR hsd h0 hub
    have hfl0 : 0 ≤ ⌊(oR : ℚ) * (((ef - sf : Int) : ℚ) / iR)⌋ := Int.floor_nonneg.mpr h0
    unfold endDelayFramesCalc cTrunc
    rw [if_neg (not_lt.mpr h0)]
    rw [Int.emod_eq_of_lt (by omega) (by omega)]
    rw [Int.toNat_of_nonneg (by omega)]
  have h1 : ((48000 : Int) : ℚ) * (((44100 - 0 : Int) : ℚ) / (44100 : ℚ)) = 48000 := by
    norm_num
  refine ⟨main, fun sd hsd => ?_, ?_⟩
  · have h2 := main sd 48000 0 44100 44100 hsd (by rw [h1]; norm_num) (by rw [h1]; norm_num)
    rw [h2, h1]
    norm_num
  · norm_num [startPlayback, envAllOk, initialState, endDelayFramesCalc, cTrunc,
      FmodResult.isGenuineError]
    rfl

/-- C1 witness: the conversion evaluated at the doubled 1024-frame buffer
safety margin and the claimed rates. -/
theorem C1_witness :
    (endDelayFramesCalc 2048 48000 44100 0 44100 : Int) - (2048 : Int) = 48000 :=
  C1_stop_delay_rate_conversion.2.1 2048 (by norm_num)

/-- C2: for every request with `endFrame > startFrame ≥ 0`, if `startPlayback`
returns status 0 then the state is Playing and the system, sound and channel
handles are all non-null. -/
theorem C2_success_playing_state (env : StartEnv) (s : LibState) (fn : String)
    (sf ef : Int) (h0 : 0 ≤ sf) (h1 : sf < ef)
    (hs : (startPlayback env s fn sf ef).status = 0) :
    (startPlayback env s fn sf ef).state.currentState = .playing ∧
    (startPlayback env s fn sf ef).state.fmsystem = true ∧
    (startPlayback env s fn sf ef).state.sound = true ∧
    (startPlayback env s fn sf ef).state.channel = true := by
  rcases startPlayback_spec env s fn sf ef with ⟨_, _, hst, _⟩ | ⟨hneg, _⟩
  · rw [hst]; exact ⟨rfl, rfl, rfl, rfl⟩
  · rcases hneg with h | h <;> omega

/-- C2 witness: a concrete all-successful run of frames [0, 10). -/
theorem C2_witness :
    (0 : Int) ≤ 0 ∧ (0 : Int) < 10 ∧
    (startPlayback envAllOk initialState "f" 0 10).status = 0 ∧
    (startPlayback envAllOk initialState "f" 0 10).state.currentState = .playing ∧
    (startPlayback envAllOk initialState "f" 0 10).state.fmsystem = true ∧
    (startPlayback envAllOk initialState "f" 0 10).state.sound = true ∧
    (startPlayback envAllOk initialState "f" 0 10).state.channel = true := by
  refine ⟨by norm_num, by norm_num, rfl, ?_⟩
  exact C2_success_playing_state envAllOk initialState "f" 0 10 (by norm_num) (by norm_num) rfl

/-- C3: for every request with `endFrame ≤ startFrame` after clamping,
`startPlayback` returns the negative range-error code -1 and leaves the
session fully torn down: state Uninitialized, no handles allocated. -/
theorem C3_range_error_teardown (env : StartEnv) (s : LibState) (fn : String)
    (sf ef : Int) (h : ef ≤ if sf < 0 then 0 else sf) :
    (startPlayback env s fn sf ef).status = -1 ∧
    (startPlayback env s fn sf ef).status < 0 ∧
    (startPlayback env s fn sf ef).state.currentState = .uninitialized ∧
    (startPlayback env s fn sf ef).state.fmsystem = false ∧
    (startPlayback env s fn sf ef).state.sound = false ∧
    (startPlayback env s fn sf ef).state.channel = false := by
  simp only [startPlayback]
  rw [if_pos h, cleanupResources_eq]
  exact ⟨rfl, by norm_num, rfl, rfl, rfl, rfl⟩

/-- C3 witness: an empty range [5, 5) is rejected with full teardown. -/
theorem C3_witness :
    ((5 : Int) ≤ if (5 : Int) < 0 then 0 else 5) ∧
    (startPlayback envAllOk initialState "f" 5 5).status = -1 ∧
    (startPlayback envAllOk initialState "f" 5 5).status < 0 ∧
    (startPlayback envAllOk initialState "f" 5 5).state.currentState = .uninitialized ∧
    (startPlayback envAllOk initialState "f" 5 5).state.fmsystem = false ∧
    (startPlayback envAllOk initialState "f" 5 5).state.sound = false ∧
    (startPlayback envAllOk initialState "f" 5 5).state.channel = false := by
  refine ⟨by norm_num, ?_⟩
  exact C3_range_error_teardown envAllOk initialState "f" 5 5 (by norm_num)

/-- C4 counterexample: in a reachable Playing state with a live channel and
`lastStartFrame = 100`, a successful position query reporting position 0
makes `streamPosition` return 4294967196 = (0 - 100) mod 2^32, not the
mathematical difference 0 - 100 = -100 the claim prescribes. -/
theorem C4_counterexample :
    statePlaying100.currentState = .playing ∧
    statePlaying100.fmsystem = true ∧ statePlaying100.sound = true ∧
    statePlaying100.channel = true ∧ statePlaying100.lastStartFrame = 100 ∧
    (streamPosition { getPositionResult := .ok, position := 0 } statePlaying100).1
      = 4294967196 ∧
    (4294967196 : Int) ≠ (0 : Int) - 100 := by
  exact ⟨rfl, rfl, rfl, rfl, by decide, by decide, by decide⟩

/-- C4 (amended): `streamPosition` returns -1 whenever the state has not
reached Playing (in particular before any session and after `stopPlayback`);
a negative return value occurs only as the -1 sentinel; and in the Playing
state with live handles and a successful query it returns
`(position - lastStartFrame) mod 2^32`, which equals the channel position
minus the recorded start frame whenever `0 ≤ lastStartFrame ≤ position`. -/
theorem C4_amended_position_semantics :
    (∀ (env : PosEnv) (s : LibState),
        s.currentState.toNat < PlaybackState.playing.toNat →
        (streamPosition env s).1 = -1) ∧
    (∀ (envStop env : PosEnv) (s : LibState),
        (streamPosition env (stopPlayback envStop s).2).1 = -1) ∧
    (∀ (env : PosEnv) (s : LibState),
        (streamPosition env s).1 < 0 → (streamPosition env s).1 = -1) ∧
    (∀ (env : PosEnv) (s : LibState),
        s.currentState = .playing → s.fmsystem = true → s.sound = true → s.channel = true →
        env.getPositionResult = FmodResult.ok →
        (streamPosition env s).1 =
          (((env.position % 2 ^ 32 : Nat) : Int) - s.lastStartFrame) % 2 ^ 32 ∧
        (0 ≤ s.lastStartFrame → s.lastStartFrame ≤ ((env.position % 2 ^ 32 : Nat) : Int) →
          (streamPosition env s).1 =
            ((env.position % 2 ^ 32 : Nat) : Int) - s.lastStartFrame)) := by
  refine ⟨streamPosition_not_playing, ?_, ?_, ?_⟩
  · intro envStop env s
    apply streamPosition_not_playing
    rw [stopPlayback_state_uninit envStop s]
    decide
  · intro env s hneg
    rcases streamPosition_cases env s with h | ⟨h, _⟩
    · exact h
    · omega
  · intro env s h1 h2 h3 h4 hok
    have hval : (streamPosition env s).1 =
        (((env.position % 2 ^ 32 : Nat) : Int) - s.lastStartFrame) % 2 ^ 32 := by
      rw [streamPosition_playing_ok env s h1 h2 h3 h4 hok]
    refine ⟨hval, fun hge hle => ?_⟩
    rw [hval]
    have hub : (env.position % 2 ^ 32 : Nat) < 2 ^ 32 := Nat.mod_lt _ (by norm_num)
    rw [Int.emod_eq_of_lt (by omega) (by omega)]

/-- C4 witness: in the reachable Playing state with `lastStartFrame = 100`
and reported position 150 the returned value is the plain difference. -/
theorem C4_witness :
    statePlaying100.currentState = .playing ∧
    (0 : Int) ≤ statePlaying100.lastStartFrame ∧
    statePlaying100.lastStartFrame ≤ ((150 % 2 ^ 32 : Nat) : Int) ∧
    (streamPosition { getPositionResult := .ok, position := 150 } statePlaying100).1 =
      ((150 % 2 ^ 32 : Nat) : Int) - statePlaying100.lastStartFrame :=
  ⟨rfl, by decide, by decide,
    (C4_amended_position_semantics.2.2.2 { getPositionResult := .ok, position := 150 }
      statePlaying100 rfl rfl rfl rfl rfl).2 (by decide) (by decide)⟩

/-- C5 counterexample: the range-error status of `startPlayback` and the
engine-error status (here: `FMOD_System_Create` failing) are both -1, so
the failure-class codes are not pairwise distinct as the claim states. -/
theorem C5_counterexample :
    (startPlayback envAllOk initialState "f" 5 5).status = -1 ∧
    (startPlayback envCreateFail initialState "f" 0 10).status = -1 ∧
    ¬((startPlayback envAllOk initialState "f" 5 5).status ≠
        (startPlayback envCreateFail initialState "f" 0 10).status) :=
  ⟨rfl, rfl, fun hne => hne rfl⟩

/-- C5 (amended): every `startPlayback` status is 0, -1 or -3; stream errors
(open and format failures) return -3, which is distinct from the -1 shared
by range errors and engine errors — range and engine errors are NOT
distinguished from one another. -/
theorem C5_amended_status_codes :
    (∀ (env : StartEnv) (s : LibState) (fn : String) (sf ef : Int),
        (startPlayback env s fn sf ef).status = 0 ∨
        (startPlayback env s fn sf ef).status = -1 ∨
        (startPlayback env s fn sf ef).status = -3) ∧
    (startPlayback envAllOk initialState "f" 5 5).status = -1 ∧
    (startPlayback envCreateFail initialState "f" 0 10).status = -1 ∧
    (startPlayback envSoundOpenFail initialState "f" 0 10).status = -3 ∧
    (startPlayback envFormatFail initialState "f" 0 10).status = -3 ∧
    ((-3 : Int) ≠ (-1 : Int)) := by
  refine ⟨fun env s fn sf ef => ?_, rfl, rfl, rfl, rfl, by norm_num⟩
  rcases startPlayback_spec env s fn sf ef with ⟨h, _⟩ | ⟨h, _⟩
  · exact Or.inl h
  · exact Or.inr h

/-- C6 counterexample: in a reachable Playing session, when the position
query fails with a genuine engine error, `stopPlayback` returns -1 — not 0
as the claim states for an undeterminable position. -/
theorem C6_counterexample :
    statePlaying0.currentState = .playing ∧ statePlaying0.channel = true ∧
    (stopPlayback { getPositionResult := .otherError 16, position := 0 } statePlaying0).1
      = -1 ∧
    ((-1 : Int) ≠ 0) :=
  ⟨rfl, rfl, rfl, by norm_num⟩

/-- C6 (amended): `stopPlayback` returns 0 and does nothing when no session
is active (so a second consecutive call always returns 0); teardown runs in
every case where a session was active; when the session reached Playing with
a live channel the returned value is the captured `streamPosition` value —
which is the -1 sentinel, not 0, when the capture fails with a genuine
engine error. -/
theorem C6_amended_stop_semantics :
    (∀ (env : PosEnv) (s : LibState),
        s.currentState = .uninitialized → stopPlayback env s = (0, s)) ∧
    (∀ (env : PosEnv) (s : LibState),
        s.currentState ≠ .uninitialized → (stopPlayback env s).2 = initialState) ∧
    (∀ (env env2 : PosEnv) (s : LibState),
        (stopPlayback env2 (stopPlayback env s).2).1 = 0) ∧
    (∀ (env : PosEnv) (s : LibState),
        PlaybackState.playing.toNat ≤ s.currentState.toNat → s.channel = true →
        (stopPlayback env s).1 = (streamPosition env s).1) ∧
    (∀ (env : PosEnv) (s : LibState),
        s.currentState = .playing → s.fmsystem = true → s.sound = true → s.channel = true →
        env.getPositionResult.isGenuineError = true →
        (stopPlayback env s).1 = -1) := by
  have hA : ∀ (env : PosEnv) (s : LibState),
      s.currentState = .uninitialized → stopPlayback env s = (0, s) := by
    intro env s h
    unfold stopPlayback
    rw [if_pos h]
  have hD : ∀ (env : PosEnv) (s : LibState),
      PlaybackState.playing.toNat ≤ s.currentState.toNat → s.channel = true →
      (stopPlayback env s).1 = (streamPosition env s).1 := by
    intro env s h1 h2
    have hne : s.currentState ≠ .uninitialized := by
      intro hc
      rw [hc] at h1
      exact absurd h1 (by decide)
    unfold stopPlayback
    rw [if_neg hne, if_pos ⟨h1, h2⟩]
  refine ⟨hA, ?_, ?_, hD, ?_⟩
  · intro env s h
    unfold stopPlayback
    rw [if_neg h]
    show cleanupResources _ = initialState
    exact cleanupResources_eq _
  · intro env env2 s
    rw [hA env2 _ (stopPlayback_state_uninit env s)]
  · intro env s h1 h2 h3 h4 hg
    rw [hD env s (by rw [h1]) h4]
    exact streamPosition_genuineError env s h1 h2 h3 h4 hg

/-- C6 witness: the amended capture-failure behavior at a concrete
reachable Playing state and a genuine query error. -/
theorem C6_witness :
    statePlaying0.currentState = .playing ∧
    FmodResult.isGenuineError (.otherError 16) = true ∧
    (stopPlayback { getPositionResult := .otherError 16, position := 0 } statePlaying0).1
      = -1 :=
  ⟨rfl, rfl,
    C6_amended_stop_semantics.2.2.2.2 { getPositionResult := .otherError 16, position := 0 }
      statePlaying0 rfl rfl rfl rfl rfl⟩

/-- C7: a negative `startFrame` is clamped to 0 and the call proceeds exactly
as if 0 had been passed: the whole run (status, final state, the seek
position handed to `CreateSound`, the scheduled delays) coincides with the
`startFrame = 0` run, and on success both the recorded start offset and the
initial seek position are 0. -/
theorem C7_negative_start_clamped (env : StartEnv) (s : LibState) (fn : String)
    (sf ef : Int) (h : sf < 0) :
    startPlayback env s fn sf ef = startPlayback env s fn 0 ef ∧
    ((startPlayback env s fn sf ef).status = 0 →
      (startPlayback env s fn sf ef).state.lastStartFrame = 0 ∧
      (startPlayback env s fn sf ef).initialSeekPosition = some 0) := by
  have heq : startPlayback env s fn sf ef = startPlayback env s fn 0 ef := by
    simp only [startPlayback]
    rw [if_pos h, if_neg (lt_irrefl 0)]
  refine ⟨heq, fun hs => ?_⟩
  rcases startPlayback_spec env s fn sf ef with ⟨_, _, hst, hseek⟩ | ⟨hneg, _⟩
  · rw [hst, hseek]
    constructor
    · show toInt32 (if sf < 0 then 0 else sf) = 0
      rw [if_pos h]
      decide
    · show some ((if sf < 0 then 0 else sf).toNat % 2 ^ 32) = some 0
      rw [if_pos h]
      rfl
  · rcases hneg with h2 | h2 <;> omega

/-- C7 witness: `startFrame = -5` behaves exactly like `startFrame = 0`. -/
theorem C7_witness :
    ((-5 : Int) < 0) ∧
    startPlayback envAllOk initialState "f" (-5) 10 =
      startPlayback envAllOk initialState "f" 0 10 ∧
    (startPlayback envAllOk initialState "f" (-5) 10).state.lastStartFrame = 0 ∧
    (startPlayback envAllOk initialState "f" (-5) 10).initialSeekPosition = some 0 := by
  have h := C7_negative_start_clamped envAllOk initialState "f" (-5) 10 (by norm_num)
  exact ⟨by norm_num, h.1, h.2 (by rw [h.1]; rfl)⟩

/-- C8: the handle-nesting invariant (sound non-null only when the system
handle is, channel only when the sound handle is) holds initially and is
preserved by every operation: `startPlayback` on every success and failure
path, `stopPlayback`, `streamPosition`, and `playbackInProgress` (which
never mutates state). -/
theorem C8_handle_nesting_invariant :
    HandleInv initialState ∧
    ∀ (op : Op) (s : LibState), HandleInv s → HandleInv (step op s) := by
  constructor
  · exact ⟨fun h => h, fun h => h⟩
  intro op s hs
  cases op with
  | start env fn sf ef =>
    show HandleInv (startPlayback env s fn sf ef).state
    rcases startPlayback_spec env s fn sf ef with ⟨_, _, hst, _⟩ | ⟨_, hst⟩ <;> rw [hst]
    · exact ⟨fun _ => rfl, fun _ => rfl⟩
    · exact ⟨fun h => h, fun h => h⟩
  | stop env =>
    show HandleInv (stopPlayback env s).2
    unfold stopPlayback
    by_cases h : s.currentState = .uninitialized
    · rw [if_pos h]
      exact hs
    · rw [if_neg h]
      show HandleInv (cleanupResources _)
      rw [cleanupResources_eq]
      exact ⟨fun h2 => h2, fun h2 => h2⟩
  | pos env =>
    show HandleInv (streamPosition env s).2
    rcases streamPosition_state env s with h | h <;> rw [h]
    · exact hs
    · exact hs
  | inProgress env => exact hs

/-- C8 witness: the invariant at the initial state and after one concrete
step. -/
theorem C8_witness :
    HandleInv initialState ∧
    HandleInv (step (Op.stop { getPositionResult := .ok, position := 0 }) initialState) :=
  ⟨C8_handle_nesting_invariant.1,
    C8_handle_nesting_invariant.2 (Op.stop { getPositionResult := .ok, position := 0 })
      initialState (by decide)⟩

/-- C9: a successful `startPlayback` with `startFrame ≥ 2^31` records into
the 32-bit `lastStartFrame` the wrap of `startFrame` modulo 2^32 (same
residue, in [-2^31, 2^31)), which differs from the requested value. -/
theorem C9_lastStartFrame_truncation (env : StartEnv) (s : LibState) (fn : String)
    (sf ef : Int) (h : 2 ^ 31 ≤ sf)
    (hs : (startPlayback env s fn sf ef).status = 0) :
    (startPlayback env s fn sf ef).state.lastStartFrame = toInt32 sf ∧
    (startPlayback env s fn sf ef).state.lastStartFrame % 2 ^ 32 = sf % 2 ^ 32 ∧
    (startPlayback env s fn sf ef).state.lastStartFrame ≠ sf := by
  rcases startPlayback_spec env s fn sf ef with ⟨_, _, hst, _⟩ | ⟨hneg, _⟩
  · rw [hst]
    have hcl : (if sf < 0 then 0 else sf) = sf := if_neg (by omega)
    refine ⟨?_, ?_, ?_⟩
    · show toInt32 (if sf < 0 then 0 else sf) = toInt32 sf
      rw [hcl]
    · show toInt32 (if sf < 0 then 0 else sf) % 2 ^ 32 = sf % 2 ^ 32
      rw [hcl]
      unfold toInt32
      omega
    · show toInt32 (if sf < 0 then 0 else sf) ≠ sf
      rw [hcl]
      unfold toInt32
      omega
  · rcases hneg with h2 | h2 <;> omega

/-- C9 witness: a successful run with `startFrame = 2^31` records a start
offset different from 2^31 (namely -2^31). -/
theorem C9_witness :
    ((2 ^ 31 : Int) ≤ 2147483648) ∧
    (startPlayback envAllOk initialState "f" 2147483648 2147483658).status = 0 ∧
    (startPlayback envAllOk initialState "f" 2147483648 2147483658).state.lastStartFrame
      = toInt32 2147483648 ∧
    (startPlayback envAllOk initialState "f" 2147483648 2147483658).state.lastStartFrame % 2 ^ 32
      = (2147483648 : Int) % 2 ^ 32 ∧
    (startPlayback envAllOk initialState "f" 2147483648 2147483658).state.lastStartFrame
      ≠ 2147483648 := by
  refine ⟨by norm_num, rfl, ?_⟩
  exact C9_lastStartFrame_truncation envAllOk initialState "f" 2147483648 2147483658
    (by norm_num) rfl

/-- C10: every `streamPosition` return value is -1 or lies in [0, 2^32),
because the difference is computed in 32-bit unsigned arithmetic before
widening to int64; and whenever the reported position is smaller than the
recorded start frame the result is `(position - startFrame) mod 2^32` — a
nonnegative value, not the mathematical (negative) difference. -/
theorem C10_unsigned_wrap_position :
    (∀ (env : PosEnv) (s : LibState),
        (streamPosition env s).1 = -1 ∨
        (0 ≤ (streamPosition env s).1 ∧ (streamPosition env s).1 < 2 ^ 32)) ∧
    (∀ (env : PosEnv) (s : LibState),
        s.currentState = .playing → s.fmsystem = true → s.sound = true → s.channel = true →
        env.getPositionResult = FmodResult.ok →
        ((env.position % 2 ^ 32 : Nat) : Int) < s.lastStartFrame →
        (streamPosition env s).1 =
          (((env.position % 2 ^ 32 : Nat) : Int) - s.lastStartFrame) % 2 ^ 32 ∧
        (streamPosition env s).1 ≠
          ((env.position % 2 ^ 32 : Nat) : Int) - s.lastStartFrame ∧
        0 ≤ (streamPosition env s).1) := by
  constructor
  · exact streamPosition_cases
  · intro env s h1 h2 h3 h4 hok hlt
    have hval : (streamPosition env s).1 =
        (((env.position % 2 ^ 32 : Nat) : Int) - s.lastStartFrame) % 2 ^ 32 := by
      rw [streamPosition_playing_ok env s h1 h2 h3 h4 hok]
    rw [hval]
    refine ⟨rfl, by omega, Int.emod_nonneg _ (by norm_num)⟩

/-- C10 witness: position 0 with recorded start frame 100 wraps to a large
positive value instead of -100. -/
theorem C10_witness :
    ((0 % 2 ^ 32 : Nat) : Int) < statePlaying100.lastStartFrame ∧
    (streamPosition { getPositionResult := .ok, position := 0 } statePlaying100).1 =
      (((0 % 2 ^ 32 : Nat) : Int) - statePlaying100.lastStartFrame) % 2 ^ 32 ∧
    (streamPosition { getPositionResult := .ok, position := 0 } statePlaying100).1 ≠
      ((0 % 2 ^ 32 : Nat) : Int) - statePlaying100.lastStartFrame :=
  ⟨by decide,
    ((C10_unsigned_wrap_position.2 { getPositionResult := .ok, position := 0 }
      statePlaying100 rfl rfl rfl rfl rfl (by decide)).1),
    ((C10_unsigned_wrap_position.2 { getPositionResult := .ok, position := 0 }
      statePlaying100 rfl rfl rfl rfl rfl (by decide)).2.1)⟩

end PennTotalRecall
